import Mathlib

/-!
Shallow embedding of the session & credit-ledger subsystem of the
qubit-discovery-hub front end.

Embedded source:
- `src/contexts/AuthContext.tsx`: the `UserProfile` record, `fetchUserProfile`
  (profile resolver over `localStorage`), `updatePoints` (ledger mutator), and
  the `useEffect` initial-session fetch.
- `src/pages/Smiles.tsx`: `handleProcessSmiles` (SMILES isomer gate, cost 7,
  debit after a successful backend response).
- `src/pages/SignUp.tsx` (Index component): `handleApproachSelection`
  (bulk file-analysis gate, cost 20/35/50, debit before the backend call).
- `src/components/Structure2DViewer.tsx`: `generate2DStructure` (cost 1) and
  `open3DVisualization` (cost 3), debit after a successful backend response.

The browser `localStorage` is modelled as an association list keyed by the
string `"user_profile_" ++ userId`, exactly the key the source uses.  Side
effects (store writes, backend calls, identity-provider calls, ledger-mutator
invocations) are recorded in an event trace so the claims about the number and
order of effects can be stated.
-/

/-- The `UserProfile` interface of `AuthContext.tsx`.  `token_points` is a JS
number used as an integer, so it is modelled as `Int`. -/
structure UserProfile where
  id : String
  email : String
  token_points : Int
  created_at : String
deriving Repr, DecidableEq

/-- The browser-local persistent profile store (`localStorage`), as a typed
association list; the first binding for a key wins, so prepending a binding
models an overwrite. -/
abbrev Store := List (String × UserProfile)

/-- `localStorage.getItem` followed by `JSON.parse`, typed. -/
def storeGet : Store → String → Option UserProfile
  | [], _ => none
  | (k', v) :: rest, k => if k' = k then some v else storeGet rest k

/-- `localStorage.setItem` with a serialized profile: last write wins. -/
def storeSet (st : Store) (k : String) (v : UserProfile) : Store :=
  (k, v) :: st

/-- The key under which `AuthContext.tsx` persists a profile. -/
def profileKey (userId : String) : String :=
  "user_profile_" ++ userId

/-- Observable side effects of the subsystem, recorded in order. -/
inductive Event where
  /-- A call to `supabase.auth.getUser()` (identity provider). -/
  | providerGetUser : Event
  /-- A `localStorage.setItem` write of a profile record. -/
  | storeWrite (key : String) (p : UserProfile) : Event
  /-- A `fetch` issued to the analysis backend. -/
  | backendCall : Event
  /-- An invocation of the ledger mutator `updatePoints` with its argument. -/
  | updCall (n : Int) : Event
deriving Repr, DecidableEq

/-- Number of persistence writes in a trace. -/
def writeCount (evs : List Event) : Nat :=
  (evs.filter (fun e => match e with | .storeWrite _ _ => true | _ => false)).length

/-- Number of identity-provider calls in a trace. -/
def providerCount (evs : List Event) : Nat :=
  (evs.filter (fun e => match e with | .providerGetUser => true | _ => false)).length

/-- The mutable state the subsystem holds: the profile React state, the
persistent store, and the `loading` flag. -/
structure AuthState where
  profile : Option UserProfile
  store : Store
  loading : Bool
deriving Repr, DecidableEq

/-- Outcome of the `supabase.auth.getUser()` call: it either resolves with an
optional email (`userData.user?.email`, `none` when the user or email is
absent) or rejects. -/
abbrev GetUserOutcome := Except Unit (Option String)

/-- `fetchUserProfile` of `AuthContext.tsx`.  Looks the subject up in the
store; if found returns it unmodified.  Otherwise calls the identity provider
for the email and creates, persists and holds a new profile with 1000 points;
if the provider call rejects, the `catch` branch creates, persists and holds
the same profile with an empty email.  `now` stands for
`new Date().toISOString()`.  Returns the new state and the effect trace. -/
def fetchUserProfile (st : AuthState) (userId : String)
    (getUser : GetUserOutcome) (now : String) : AuthState × List Event :=
  match storeGet st.store (profileKey userId) with
  | some saved =>
    ({ st with profile := some saved, loading := false }, [])
  | none =>
    match getUser with
    | .ok email? =>
      let p : UserProfile :=
        { id := userId, email := email?.getD "", token_points := 1000, created_at := now }
      (⟨some p, storeSet st.store (profileKey userId) p, false⟩,
       [.providerGetUser, .storeWrite (profileKey userId) p])
    | .error _ =>
      let p : UserProfile :=
        { id := userId, email := "", token_points := 1000, created_at := now }
      (⟨some p, storeSet st.store (profileKey userId) p, false⟩,
       [.providerGetUser, .storeWrite (profileKey userId) p])

/-- `updatePoints` of `AuthContext.tsx` (the ledger mutator): if a profile is
held, replace its `token_points` with the argument, hold the updated profile
and re-persist it; otherwise do nothing. -/
def updatePoints (st : AuthState) (newPoints : Int) : AuthState × List Event :=
  match st.profile with
  | none => (st, [])
  | some p =>
    let updated : UserProfile := { p with token_points := newPoints }
    ({ st with
        profile := some updated
        store := storeSet st.store (profileKey p.id) updated },
     [.storeWrite (profileKey p.id) updated])

/-- `String.prototype.trim` of JS, modelled executably: strip leading and
trailing whitespace. -/
def jsTrim (s : String) : String :=
  ⟨((s.data.dropWhile Char.isWhitespace).reverse.dropWhile Char.isWhitespace).reverse⟩

/-- How far a feature-gate invocation got. -/
inductive GateOutcome where
  /-- `Smiles.tsx`: empty SMILES input, rejected before any check. -/
  | emptyInput : GateOutcome
  /-- Index component: no file selected, rejected before any check. -/
  | noFile : GateOutcome
  /-- Profile not yet loaded: "account not ready" refusal. -/
  | noProfile : GateOutcome
  /-- Balance below the feature price: "insufficient balance" refusal. -/
  | insufficient : GateOutcome
  /-- Cached 2D structure re-shown; no paid operation attempted. -/
  | cachedToggle : GateOutcome
  /-- Backend was called but the run ended without a successful result. -/
  | failed : GateOutcome
  /-- Backend succeeded and the debit was applied. -/
  | succeeded : GateOutcome
deriving Repr, DecidableEq

/-- Outcome of the `fetch` in `handleProcessSmiles` / `open3DVisualization`
(`/api/process-smiles`): the fetch rejects, resolves non-ok, or resolves ok
with a parsed body carrying `success` and the isomer list length
(`data.isomers` absent is modelled as length 0, matching JS truthiness of
`data.isomers && data.isomers.length > 0`). -/
inductive SmilesResp where
  | netError : SmilesResp
  | notOk : SmilesResp
  | ok (success : Bool) (numIsomers : Nat) : SmilesResp
deriving Repr, DecidableEq

/-- `handleProcessSmiles` of `Smiles.tsx`: input check, profile check,
affordability check against cost 7, backend call, and debit of
`token_points - 7` via `updatePoints` only when the response is ok and
`result.success` holds. -/
def handleProcessSmiles (st : AuthState) (smilesInput : String)
    (resp : SmilesResp) : AuthState × List Event × GateOutcome :=
  if jsTrim smilesInput = "" then (st, [], .emptyInput)
  else
    match st.profile with
    | none => (st, [], .noProfile)
    | some profile =>
      let cost : Int := 7
      if profile.token_points < cost then (st, [], .insufficient)
      else
        match resp with
        | .netError => (st, [.backendCall], .failed)
        | .notOk => (st, [.backendCall], .failed)
        | .ok false _ => (st, [.backendCall], .failed)
        | .ok true _ =>
          let newPoints := profile.token_points - cost
          let r := updatePoints st newPoints
          (r.1, .backendCall :: .updCall newPoints :: r.2, .succeeded)

/-- The three analysis approaches of the bulk file-analysis flow. -/
inductive Approach where
  | classical : Approach
  | quantum : Approach
  | both : Approach
deriving Repr, DecidableEq

/-- The `POINTS_COST` table of the Index component. -/
def approachCost : Approach → Int
  | .classical => 20
  | .quantum => 35
  | .both => 50

/-- Outcome of the `fetch` to `/api/upload-and-process`. -/
inductive UploadResp where
  | netError : UploadResp
  | notOk : UploadResp
  | ok : UploadResp
deriving Repr, DecidableEq

/-- `handleApproachSelection` of the Index component (bulk file analysis):
file check, profile check, affordability check, then the debit is applied via
`updatePoints` BEFORE the backend call; a failing backend response is caught
and surfaced but the debit is never rolled back. -/
def handleApproachSelection (st : AuthState) (hasFile : Bool)
    (approach : Approach) (resp : UploadResp) :
    AuthState × List Event × GateOutcome :=
  if hasFile = false then (st, [], .noFile)
  else
    match st.profile with
    | none => (st, [], .noProfile)
    | some profile =>
      let cost := approachCost approach
      if profile.token_points < cost then (st, [], .insufficient)
      else
        let newPoints := profile.token_points - cost
        let r := updatePoints st newPoints
        match resp with
        | .ok =>
          (r.1, (.updCall newPoints :: r.2) ++ [.backendCall], .succeeded)
        | .notOk =>
          (r.1, (.updCall newPoints :: r.2) ++ [.backendCall], .failed)
        | .netError =>
          (r.1, (.updCall newPoints :: r.2) ++ [.backendCall], .failed)

/-- Outcome of the `fetch` to `/api/generate-2d-structure`: the parsed body
carries `success` and `structure_2d`; an absent or empty string is falsy in
`data.success && data.structure_2d`, so `structure2d` is the string with `""`
standing for absent. -/
inductive TwoDResp where
  | netError : TwoDResp
  | notOk : TwoDResp
  | ok (success : Bool) (structure2d : String) : TwoDResp
deriving Repr, DecidableEq

/-- `generate2DStructure` of `Structure2DViewer.tsx`: if a 2D structure is
already cached it is just re-shown (no check, no call, no charge); otherwise
profile check, affordability check against cost 1, backend call, and debit of
`token_points - 1` only when `data.success && data.structure_2d` holds. -/
def generate2DStructure (st : AuthState) (cached : Option String)
    (resp : TwoDResp) : AuthState × List Event × GateOutcome :=
  match cached with
  | some _ => (st, [], .cachedToggle)
  | none =>
    match st.profile with
    | none => (st, [], .noProfile)
    | some profile =>
      let cost : Int := 1
      if profile.token_points < cost then (st, [], .insufficient)
      else
        match resp with
        | .netError => (st, [.backendCall], .failed)
        | .notOk => (st, [.backendCall], .failed)
        | .ok success structure2d =>
          if success = true ∧ structure2d ≠ "" then
            let newPoints := profile.token_points - cost
            let r := updatePoints st newPoints
            (r.1, .backendCall :: .updCall newPoints :: r.2, .succeeded)
          else (st, [.backendCall], .failed)

/-- `open3DVisualization` of `Structure2DViewer.tsx`: profile check,
affordability check against cost 3, backend call to `/api/process-smiles`,
and debit of `token_points - 3` only when
`data.success && data.isomers && data.isomers.length > 0` holds. -/
def open3DVisualization (st : AuthState) (resp : SmilesResp) :
    AuthState × List Event × GateOutcome :=
  match st.profile with
  | none => (st, [], .noProfile)
  | some profile =>
    let cost : Int := 3
    if profile.token_points < cost then (st, [], .insufficient)
    else
      match resp with
      | .netError => (st, [.backendCall], .failed)
      | .notOk => (st, [.backendCall], .failed)
      | .ok success numIsomers =>
        if success = true ∧ 0 < numIsomers then
          let newPoints := profile.token_points - cost
          let r := updatePoints st newPoints
          (r.1, .backendCall :: .updCall newPoints :: r.2, .succeeded)
        else (st, [.backendCall], .failed)

/-- Outcome of the initial `supabase.auth.getSession()` promise: it resolves
with an optional session (here just its user id) or rejects. -/
inductive SessionOutcome where
  | ok (sessionUserId : Option String) : SessionOutcome
  | rejected : SessionOutcome
deriving Repr, DecidableEq

/-- State of the session observer: the auth state plus the held session's
user id (`none` = unauthenticated). -/
structure ObserverState where
  sessionUser : Option String
  auth : AuthState
deriving Repr, DecidableEq

/-- The state the `AuthProvider` starts in: no session, no profile, empty
store could be anything — the store is a parameter — and `loading = true`. -/
def observerInit (store : Store) : ObserverState :=
  ⟨none, ⟨none, store, true⟩⟩

/-- The initial-session fetch of the `AuthProvider` `useEffect`:
`supabase.auth.getSession().then(...)` with NO `.catch`.  On a resolved
outcome the callback stores the session and either resolves the profile or
clears `loading`; on a rejected outcome the callback is skipped — no state
changes and the rejection escapes as an unhandled promise rejection (the
returned `Bool` is `true` exactly in that case). -/
def initialSessionFetch (st : ObserverState) (r : SessionOutcome)
    (getUser : GetUserOutcome) (now : String) :
    ObserverState × List Event × Bool :=
  match r with
  | .rejected => (st, [], true)
  | .ok none =>
    (⟨none, { st.auth with loading := false }⟩, [], false)
  | .ok (some uid) =>
    let r := fetchUserProfile st.auth uid getUser now
    (⟨some uid, r.1⟩, r.2, false)

/-- An auth-state-change delivery of an empty session (sign-out or expiry):
the callback clears the session, clears the held profile and resolves
`loading`. -/
def signOutTransition (st : ObserverState) : ObserverState :=
  ⟨none, ⟨none, st.auth.store, false⟩⟩

/-- One atomic step of the subsystem, as executed by the event loop: a
profile resolution, a feature-gate run (with an arbitrary backend outcome),
or a sign-out clearing the profile. -/
inductive Step : AuthState → AuthState → Prop where
  | fetch (st : AuthState) (uid : String) (g : GetUserOutcome) (now : String) :
      Step st (fetchUserProfile st uid g now).1
  | smiles (st : AuthState) (inp : String) (r : SmilesResp) :
      Step st (handleProcessSmiles st inp r).1
  | approach (st : AuthState) (hf : Bool) (a : Approach) (r : UploadResp) :
      Step st (handleApproachSelection st hf a r).1
  | gen2d (st : AuthState) (cached : Option String) (r : TwoDResp) :
      Step st (generate2DStructure st cached r).1
  | open3d (st : AuthState) (r : SmilesResp) :
      Step st (open3DVisualization st r).1
  | signOut (st : AuthState) :
      Step st ⟨none, st.store, false⟩

/-- The state the subsystem boots in before any step: no profile, empty
store, loading. -/
def initState : AuthState :=
  ⟨none, [], true⟩

/-- Reachability under `Step` from the boot state. -/
def ReachableState (st : AuthState) : Prop :=
  Relation.ReflTransGen Step initState st

/-- The balance invariant: the held profile and every stored profile carry a
non-negative balance. -/
def BalanceInv (st : AuthState) : Prop :=
  (∀ p, st.profile = some p → 0 ≤ p.token_points) ∧
  (∀ k p, storeGet st.store k = some p → 0 ≤ p.token_points)

lemma storeGet_storeSet (sto : Store) (k k' : String) (v : UserProfile) :
    storeGet (storeSet sto k v) k' = if k = k' then some v else storeGet sto k' := rfl

lemma storeGet_storeSet_self (sto : Store) (k : String) (v : UserProfile) :
    storeGet (storeSet sto k v) k = some v := by
  rw [storeGet_storeSet, if_pos rfl]

lemma updatePoints_none (st : AuthState) (n : Int) (h : st.profile = none) :
    updatePoints st n = (st, []) := by
  simp [updatePoints, h]

lemma updatePoints_some (st : AuthState) (p : UserProfile) (n : Int)
    (h : st.profile = some p) :
    updatePoints st n =
      (⟨some ⟨p.id, p.email, n, p.created_at⟩,
        storeSet st.store (profileKey p.id) ⟨p.id, p.email, n, p.created_at⟩,
        st.loading⟩,
       [.storeWrite (profileKey p.id) ⟨p.id, p.email, n, p.created_at⟩]) := by
  simp [updatePoints, h]

/-- C7: Round-trip: for every profile `P` and subject identifier `s`,
persisting `P` under `s` and then resolving `s` returns a profile equal in
all fields to `P`, with an empty effect trace — in particular no call to the
identity provider is issued. -/
theorem resolve_roundtrip (pr : Option UserProfile) (sto : Store) (ld : Bool)
    (s : String) (P : UserProfile) (g : GetUserOutcome) (now : String) :
    fetchUserProfile ⟨pr, storeSet sto (profileKey s) P, ld⟩ s g now =
      (⟨some P, storeSet sto (profileKey s) P, false⟩, []) ∧
    providerCount (fetchUserProfile ⟨pr, storeSet sto (profileKey s) P, ld⟩ s g now).2 = 0 := by
  constructor
  · simp [fetchUserProfile, storeGet_storeSet_self]
  · simp [fetchUserProfile, storeGet_storeSet_self, providerCount]

/-- C6: `resolve` never fails: for a subject with no persisted profile, if
the identity-provider email fetch rejects, resolution still constructs,
persists and returns the profile with that subject id, empty email and
balance 1000. -/
theorem resolve_survives_provider_failure (st : AuthState) (s now : String)
    (h : storeGet st.store (profileKey s) = none) :
    fetchUserProfile st s (.error ()) now =
      (⟨some ⟨s, "", 1000, now⟩,
        storeSet st.store (profileKey s) ⟨s, "", 1000, now⟩, false⟩,
       [.providerGetUser, .storeWrite (profileKey s) ⟨s, "", 1000, now⟩]) ∧
    storeGet (fetchUserProfile st s (.error ()) now).1.store (profileKey s) =
      some ⟨s, "", 1000, now⟩ := by
  constructor
  · simp [fetchUserProfile, h]
  · simp [fetchUserProfile, h, storeGet_storeSet_self]

theorem resolve_survives_provider_failure_witness :
    storeGet initState.store (profileKey ("u1")) = none ∧
    (fetchUserProfile initState ("u1") (.error ()) ("t0")).1.profile =
      some ⟨"u1", "", 1000, "t0"⟩ := by
  refine ⟨rfl, ?_⟩
  rw [(resolve_survives_provider_failure initState ("u1") ("t0") rfl).1]

/-- C8: every newly created profile has balance exactly 1000 and a non-empty
id equal to the observed subject identifier; first-time resolution of a
subject whose provider-reported email is `e` produces and persists the
profile `{id := s, email := e, token_points := 1000}`. -/
theorem new_profile_shape (st : AuthState) (s e now : String) (hs : s ≠ "")
    (h : storeGet st.store (profileKey s) = none) :
    (fetchUserProfile st s (.ok (some e)) now).1.profile = some ⟨s, e, 1000, now⟩ ∧
    storeGet (fetchUserProfile st s (.ok (some e)) now).1.store (profileKey s) =
      some ⟨s, e, 1000, now⟩ ∧
    (⟨s, e, 1000, now⟩ : UserProfile).id ≠ "" ∧
    (⟨s, e, 1000, now⟩ : UserProfile).token_points = 1000 := by
  refine ⟨?_, ?_, hs, rfl⟩
  · simp [fetchUserProfile, h]
  · simp [fetchUserProfile, h, storeGet_storeSet_self]

theorem new_profile_shape_witness :
    (fetchUserProfile initState ("u1") (.ok (some ("a@b.com"))) ("t0")).1.profile =
      some ⟨"u1", "a@b.com", 1000, "t0"⟩ :=
  (new_profile_shape initState ("u1") ("a@b.com") ("t0") (by decide) rfl).1

/-- C10: frame of the ledger mutator: `updatePoints n` changes only the
balance field — the held and re-persisted profile keeps the same `id`,
`email` and `created_at` — and when no profile is held the call is a no-op
with no state change and no persistence write. -/
theorem updatePoints_frame (st : AuthState) (n : Int) :
    (st.profile = none → updatePoints st n = (st, [])) ∧
    (∀ p, st.profile = some p →
      (updatePoints st n).1.profile = some ⟨p.id, p.email, n, p.created_at⟩ ∧
      (updatePoints st n).1.store =
        storeSet st.store (profileKey p.id) ⟨p.id, p.email, n, p.created_at⟩ ∧
      (updatePoints st n).1.loading = st.loading ∧
      (updatePoints st n).2 =
        [.storeWrite (profileKey p.id) ⟨p.id, p.email, n, p.created_at⟩]) := by
  constructor
  · intro h
    exact updatePoints_none st n h
  · intro p hp
    rw [updatePoints_some st p n hp]
    exact ⟨rfl, rfl, rfl, rfl⟩

theorem updatePoints_frame_witness :
    (updatePoints ⟨some ⟨"u", "e", 50, "t"⟩, [], false⟩ 15).1.profile =
      some ⟨"u", "e", 15, "t"⟩ ∧
    updatePoints ⟨none, [], false⟩ 15 = (⟨none, [], false⟩, []) :=
  ⟨((updatePoints_frame ⟨some ⟨"u", "e", 50, "t"⟩, [], false⟩ 15).2
      ⟨"u", "e", 50, "t"⟩ rfl).1,
   (updatePoints_frame ⟨none, [], false⟩ 15).1 rfl⟩

/-- C1: for every held profile with balance `b` and every paid feature of
price `cost` with `cost ≤ b`, a successful backend response leads to a held
profile with balance exactly `b - cost` and exactly one write to the
persistent profile store, at each of the four feature gates. -/
theorem debit_on_success_balance_and_single_write (st : AuthState)
    (p : UserProfile) (hp : st.profile = some p) :
    (∀ a : Approach, approachCost a ≤ p.token_points →
      (handleApproachSelection st true a .ok).1.profile =
        some ⟨p.id, p.email, p.token_points - approachCost a, p.created_at⟩ ∧
      writeCount (handleApproachSelection st true a .ok).2.1 = 1) ∧
    (∀ inp : String, jsTrim inp ≠ "" → (7 : Int) ≤ p.token_points → ∀ k : Nat,
      (handleProcessSmiles st inp (.ok true k)).1.profile =
        some ⟨p.id, p.email, p.token_points - 7, p.created_at⟩ ∧
      writeCount (handleProcessSmiles st inp (.ok true k)).2.1 = 1) ∧
    (∀ s2d : String, s2d ≠ "" → (1 : Int) ≤ p.token_points →
      (generate2DStructure st none (.ok true s2d)).1.profile =
        some ⟨p.id, p.email, p.token_points - 1, p.created_at⟩ ∧
      writeCount (generate2DStructure st none (.ok true s2d)).2.1 = 1) ∧
    (∀ k : Nat, 0 < k → (3 : Int) ≤ p.token_points →
      (open3DVisualization st (.ok true k)).1.profile =
        some ⟨p.id, p.email, p.token_points - 3, p.created_at⟩ ∧
      writeCount (open3DVisualization st (.ok true k)).2.1 = 1) := by
  refine ⟨?_, ?_, ?_, ?_⟩
  · intro a h
    rw [handleApproachSelection]
    simp only [hp, not_lt.mpr h, if_neg, if_false, Bool.true_eq_false]
    rw [updatePoints_some st p _ hp]
    simp [writeCount]
  · intro inp hinp h7 k
    rw [handleProcessSmiles]
    simp only [hinp, if_neg, hp]
    rw [if_neg (not_lt.mpr h7), updatePoints_some st p _ hp]
    simp [writeCount]
  · intro s2d hs h1
    rw [generate2DStructure]
    simp only [hp]
    rw [if_neg (not_lt.mpr h1), if_pos ⟨by trivial, hs⟩, updatePoints_some st p _ hp]
    simp [writeCount]
  · intro k hk h3
    rw [open3DVisualization]
    simp only [hp]
    rw [if_neg (not_lt.mpr h3), if_pos ⟨by trivial, hk⟩, updatePoints_some st p _ hp]
    simp [writeCount]

theorem debit_on_success_balance_and_single_write_witness :
    (handleApproachSelection ⟨some ⟨"u", "e", 50, "t"⟩, [], false⟩ true
        .quantum .ok).1.profile = some ⟨"u", "e", 15, "t"⟩ ∧
    writeCount (handleApproachSelection ⟨some ⟨"u", "e", 50, "t"⟩, [], false⟩
        true .quantum .ok).2.1 = 1 := by
  have h := (debit_on_success_balance_and_single_write
    ⟨some ⟨"u", "e", 50, "t"⟩, [], false⟩ ⟨"u", "e", 50, "t"⟩ rfl).1 .quantum
    (by norm_num [approachCost])
  simpa [approachCost] using h

/-- C2: for every held profile with balance `b` and every paid feature of
price `cost`, if `b < cost` the gate refuses with the insufficient-balance
outcome and returns the state unchanged with an empty effect trace: no
backend call and no ledger-mutator call, at each of the four feature
gates and for every backend outcome. -/
theorem insufficient_balance_refusal (st : AuthState) (p : UserProfile)
    (hp : st.profile = some p) :
    (∀ (a : Approach) (r : UploadResp), p.token_points < approachCost a →
      handleApproachSelection st true a r = (st, [], .insufficient)) ∧
    (∀ (inp : String) (r : SmilesResp), jsTrim inp ≠ "" →
      p.token_points < 7 →
      handleProcessSmiles st inp r = (st, [], .insufficient)) ∧
    (∀ r : TwoDResp, p.token_points < 1 →
      generate2DStructure st none r = (st, [], .insufficient)) ∧
    (∀ r : SmilesResp, p.token_points < 3 →
      open3DVisualization st r = (st, [], .insufficient)) := by
  refine ⟨?_, ?_, ?_, ?_⟩
  · intro a r h
    rw [handleApproachSelection]
    simp [hp, if_pos h]
  · intro inp r hinp h
    rw [handleProcessSmiles]
    simp [hp, hinp, if_pos h]
  · intro r h
    rw [generate2DStructure]
    simp [hp, if_pos h]
  · intro r h
    rw [open3DVisualization]
    simp [hp, if_pos h]

theorem insufficient_balance_refusal_witness :
    handleApproachSelection ⟨some ⟨"u", "e", 20, "t"⟩, [], false⟩ true
      .quantum .ok = (⟨some ⟨"u", "e", 20, "t"⟩, [], false⟩, [], .insufficient) :=
  (insufficient_balance_refusal ⟨some ⟨"u", "e", 20, "t"⟩, [], false⟩
    ⟨"u", "e", 20, "t"⟩ rfl).1 .quantum .ok (by norm_num [approachCost])

/-- The exact condition under which `handleProcessSmiles` debits:
`response.ok && result.success`. -/
def smilesDebits : SmilesResp → Bool
  | .ok true _ => true
  | _ => false

/-- The exact condition under which `generate2DStructure` debits:
`response.ok && data.success && data.structure_2d` (a JS-truthy string). -/
def twoDDebits : TwoDResp → Bool
  | .ok true s => s != ""
  | _ => false

/-- The exact condition under which `open3DVisualization` debits:
`response.ok && data.success && data.isomers && data.isomers.length > 0`. -/
def threeDDebits : SmilesResp → Bool
  | .ok true k => k != 0
  | _ => false

/-- C4: for the SMILES isomer gate and the 2D/3D visualization gates, the
ledger mutator is invoked only after a successful backend response: in every
run that reaches the backend and whose response is a rejection, a non-ok
status, or an unsuccessful result, the whole run is exactly a backend call —
the held profile, its balance and the persisted store are unchanged and no
ledger-mutator call and no store write occur. -/
theorem charge_after_gates_no_debit_on_failure (st : AuthState)
    (p : UserProfile) (hp : st.profile = some p) :
    (∀ (inp : String) (r : SmilesResp), jsTrim inp ≠ "" →
      (7 : Int) ≤ p.token_points → smilesDebits r = false →
      handleProcessSmiles st inp r = (st, [.backendCall], .failed)) ∧
    (∀ r : TwoDResp, (1 : Int) ≤ p.token_points → twoDDebits r = false →
      generate2DStructure st none r = (st, [.backendCall], .failed)) ∧
    (∀ r : SmilesResp, (3 : Int) ≤ p.token_points → threeDDebits r = false →
      open3DVisualization st r = (st, [.backendCall], .failed)) := by
  refine ⟨?_, ?_, ?_⟩
  · intro inp r hinp h7 hd
    match r with
    | .netError =>
      rw [handleProcessSmiles]
      simp [hp, hinp, if_neg (not_lt.mpr h7)]
    | .notOk =>
      rw [handleProcessSmiles]
      simp [hp, hinp, if_neg (not_lt.mpr h7)]
    | .ok false k =>
      rw [handleProcessSmiles]
      simp [hp, hinp, if_neg (not_lt.mpr h7)]
    | .ok true k =>
      simp [smilesDebits] at hd
  · intro r h1 hd
    match r with
    | .netError =>
      rw [generate2DStructure]
      simp [hp, if_neg (not_lt.mpr h1)]
    | .notOk =>
      rw [generate2DStructure]
      simp [hp, if_neg (not_lt.mpr h1)]
    | .ok false s =>
      rw [generate2DStructure]
      simp [hp, if_neg (not_lt.mpr h1)]
    | .ok true s =>
      simp [twoDDebits] at hd
      rw [generate2DStructure]
      simp [hp, if_neg (not_lt.mpr h1), hd]
  · intro r h3 hd
    match r with
    | .netError =>
      rw [open3DVisualization]
      simp [hp, if_neg (not_lt.mpr h3)]
    | .notOk =>
      rw [open3DVisualization]
      simp [hp, if_neg (not_lt.mpr h3)]
    | .ok false k =>
      rw [open3DVisualization]
      simp [hp, if_neg (not_lt.mpr h3)]
    | .ok true k =>
      simp [threeDDebits] at hd
      rw [open3DVisualization]
      simp [hp, if_neg (not_lt.mpr h3), hd]

theorem charge_after_gates_no_debit_on_failure_witness :
    handleProcessSmiles ⟨some ⟨"u", "e", 50, "t"⟩, [], false⟩ ("CCO")
      .netError = (⟨some ⟨"u", "e", 50, "t"⟩, [], false⟩, [.backendCall], .failed) :=
  (charge_after_gates_no_debit_on_failure ⟨some ⟨"u", "e", 50, "t"⟩, [], false⟩
    ⟨"u", "e", 50, "t"⟩ rfl).1 ("CCO") .netError (by decide) (by norm_num) rfl

/-- C5: for the bulk file-analysis flow, for every backend outcome the run
first invokes the ledger mutator with `balance - cost` and persists the
debited profile, and only then issues the backend call — the effect trace is
exactly `[updCall (b - cost), storeWrite, backendCall]` — and when the
backend call subsequently fails the final held and persisted balance is
still `b - cost`: there is no compensating refund. -/
theorem bulk_flow_predebit_no_refund (st : AuthState) (p : UserProfile)
    (a : Approach) (r : UploadResp) (hp : st.profile = some p)
    (h : approachCost a ≤ p.token_points) :
    handleApproachSelection st true a r =
      (⟨some ⟨p.id, p.email, p.token_points - approachCost a, p.created_at⟩,
        storeSet st.store (profileKey p.id)
          ⟨p.id, p.email, p.token_points - approachCost a, p.created_at⟩,
        st.loading⟩,
       [.updCall (p.token_points - approachCost a),
        .storeWrite (profileKey p.id)
          ⟨p.id, p.email, p.token_points - approachCost a, p.created_at⟩,
        .backendCall],
       if r = .ok then .succeeded else .failed) := by
  match r with
  | .ok =>
    rw [handleApproachSelection]
    simp only [hp]
    rw [if_neg (by simp), if_neg (not_lt.mpr h), updatePoints_some st p _ hp]
    simp
  | .notOk =>
    rw [handleApproachSelection]
    simp only [hp]
    rw [if_neg (by simp), if_neg (not_lt.mpr h), updatePoints_some st p _ hp]
    simp
  | .netError =>
    rw [handleApproachSelection]
    simp only [hp]
    rw [if_neg (by simp), if_neg (not_lt.mpr h), updatePoints_some st p _ hp]
    simp

theorem bulk_flow_predebit_no_refund_witness :
    handleApproachSelection ⟨some ⟨"u", "e", 50, "t"⟩, [], false⟩ true
      .quantum .netError =
      (⟨some ⟨"u", "e", 15, "t"⟩,
        storeSet [] (profileKey ("u")) ⟨"u", "e", 15, "t"⟩, false⟩,
       [.updCall 15, .storeWrite (profileKey ("u")) ⟨"u", "e", 15, "t"⟩,
        .backendCall],
       .failed) := by
  have h := bulk_flow_predebit_no_refund ⟨some ⟨"u", "e", 50, "t"⟩, [], false⟩
    ⟨"u", "e", 50, "t"⟩ .quantum .netError rfl (by norm_num [approachCost])
  simpa [approachCost] using h

lemma storeInv_set (sto : Store) (k : String) (v : UserProfile)
    (hs : ∀ k' p, storeGet sto k' = some p → 0 ≤ p.token_points)
    (hv : 0 ≤ v.token_points) :
    ∀ k' p, storeGet (storeSet sto k v) k' = some p → 0 ≤ p.token_points := by
  intro k' p h
  rw [storeGet_storeSet] at h
  by_cases hk : k = k'
  · rw [if_pos hk] at h
    cases h
    exact hv
  · rw [if_neg hk] at h
    exact hs k' p h

lemma balanceInv_updatePoints (st : AuthState) (n : Int) (hI : BalanceInv st)
    (hn : 0 ≤ n) : BalanceInv (updatePoints st n).1 := by
  cases hp : st.profile with
  | none =>
    rw [updatePoints_none st n hp]
    exact hI
  | some p =>
    rw [updatePoints_some st p n hp]
    refine ⟨?_, ?_⟩
    · intro q hq
      cases hq
      exact hn
    · exact storeInv_set st.store (profileKey p.id) _ hI.2 hn

lemma balanceInv_fetch (st : AuthState) (uid : String) (g : GetUserOutcome)
    (now : String) (hI : BalanceInv st) :
    BalanceInv (fetchUserProfile st uid g now).1 := by
  cases hs : storeGet st.store (profileKey uid) with
  | some saved =>
    simp only [fetchUserProfile, hs]
    exact ⟨fun p h => by cases h; exact hI.2 _ _ hs, hI.2⟩
  | none =>
    cases g with
    | ok e =>
      simp only [fetchUserProfile, hs]
      refine ⟨fun p h => by cases h; norm_num, ?_⟩
      exact storeInv_set st.store (profileKey uid) _ hI.2 (by norm_num)
    | error u =>
      simp only [fetchUserProfile, hs]
      refine ⟨fun p h => by cases h; norm_num, ?_⟩
      exact storeInv_set st.store (profileKey uid) _ hI.2 (by norm_num)

lemma balanceInv_smiles (st : AuthState) (inp : String) (r : SmilesResp)
    (hI : BalanceInv st) : BalanceInv (handleProcessSmiles st inp r).1 := by
  by_cases hin : jsTrim inp = ""
  · simp only [handleProcessSmiles, if_pos hin]
    exact hI
  · cases hp : st.profile with
    | none =>
      simp only [handleProcessSmiles, if_neg hin, hp]
      exact hI
    | some p =>
      simp only [handleProcessSmiles, if_neg hin, hp]
      by_cases hlt : p.token_points < 7
      · rw [if_pos hlt]
        exact hI
      · rw [if_neg hlt]
        match r with
        | .netError => exact hI
        | .notOk => exact hI
        | .ok false k => exact hI
        | .ok true k => exact balanceInv_updatePoints st _ hI (by omega)

lemma balanceInv_approach (st : AuthState) (hf : Bool) (a : Approach)
    (r : UploadResp) (hI : BalanceInv st) :
    BalanceInv (handleApproachSelection st hf a r).1 := by
  by_cases hfe : hf = false
  · simp only [handleApproachSelection, if_pos hfe]
    exact hI
  · cases hp : st.profile with
    | none =>
      simp only [handleApproachSelection, if_neg hfe, hp]
      exact hI
    | some p =>
      simp only [handleApproachSelection, if_neg hfe, hp]
      by_cases hlt : p.token_points < approachCost a
      · rw [if_pos hlt]
        exact hI
      · rw [if_neg hlt]
        match r with
        | .ok => exact balanceInv_updatePoints st _ hI (by omega)
        | .notOk => exact balanceInv_updatePoints st _ hI (by omega)
        | .netError => exact balanceInv_updatePoints st _ hI (by omega)

lemma balanceInv_gen2d (st : AuthState) (cached : Option String)
    (r : TwoDResp) (hI : BalanceInv st) :
    BalanceInv (generate2DStructure st cached r).1 := by
  cases cached with
  | some s => exact hI
  | none =>
    cases hp : st.profile with
    | none =>
      simp only [generate2DStructure, hp]
      exact hI
    | some p =>
      simp only [generate2DStructure, hp]
      by_cases hlt : p.token_points < 1
      · rw [if_pos hlt]
        exact hI
      · rw [if_neg hlt]
        match r with
        | .netError => exact hI
        | .notOk => exact hI
        | .ok success s2d =>
          dsimp only
          by_cases hc : success = true ∧ s2d ≠ ""
          · rw [if_pos hc]
            exact balanceInv_updatePoints st _ hI (by omega)
          · rw [if_neg hc]
            exact hI

lemma balanceInv_open3d (st : AuthState) (r : SmilesResp) (hI : BalanceInv st) :
    BalanceInv (open3DVisualization st r).1 := by
  cases hp : st.profile with
  | none =>
    simp only [open3DVisualization, hp]
    exact hI
  | some p =>
    simp only [open3DVisualization, hp]
    by_cases hlt : p.token_points < 3
    · rw [if_pos hlt]
      exact hI
    · rw [if_neg hlt]
      match r with
      | .netError => exact hI
      | .notOk => exact hI
      | .ok success k =>
        dsimp only
        by_cases hc : success = true ∧ 0 < k
        · rw [if_pos hc]
          exact balanceInv_updatePoints st _ hI (by omega)
        · rw [if_neg hc]
          exact hI

lemma balanceInv_step (st st' : AuthState) (h : Step st st') (hI : BalanceInv st) :
    BalanceInv st' := by
  cases h with
  | fetch uid g now => exact balanceInv_fetch st uid g now hI
  | smiles inp r => exact balanceInv_smiles st inp r hI
  | approach hf a r => exact balanceInv_approach st hf a r hI
  | gen2d cached r => exact balanceInv_gen2d st cached r hI
  | open3d r => exact balanceInv_open3d st r hI
  | signOut => exact ⟨fun p h => (nomatch h), hI.2⟩

lemma balanceInv_init : BalanceInv initState := by
  refine ⟨fun p h => (nomatch h), fun k p h => ?_⟩
  simp [initState, storeGet] at h

/-- Every ledger-mutator invocation recorded in the trace has a non-negative
argument. -/
def UpdCallsNonneg (evs : List Event) : Prop :=
  ∀ n : Int, Event.updCall n ∈ evs → 0 ≤ n

lemma updatePoints_no_updCall (st : AuthState) (n m : Int) :
    Event.updCall m ∉ (updatePoints st n).2 := by
  cases hp : st.profile with
  | none =>
    rw [updatePoints_none st n hp]
    simp
  | some p =>
    rw [updatePoints_some st p n hp]
    simp

lemma updNonneg_smiles (st : AuthState) (inp : String) (r : SmilesResp) :
    UpdCallsNonneg (handleProcessSmiles st inp r).2.1 := by
  by_cases hin : jsTrim inp = ""
  · simp only [handleProcessSmiles, if_pos hin]
    intro n h
    simp at h
  · cases hp : st.profile with
    | none =>
      simp only [handleProcessSmiles, if_neg hin, hp]
      intro n h
      simp at h
    | some p =>
      simp only [handleProcessSmiles, if_neg hin, hp]
      by_cases hlt : p.token_points < 7
      · rw [if_pos hlt]
        intro n h
        simp at h
      · rw [if_neg hlt]
        match r with
        | .netError =>
          intro n h
          simp at h
        | .notOk =>
          intro n h
          simp at h
        | .ok false k =>
          intro n h
          simp at h
        | .ok true k =>
          intro n h
          dsimp only at h
          rcases List.mem_cons.mp h with h1 | h2
          · exact absurd h1 (by simp)
          · rcases List.mem_cons.mp h2 with h3 | h4
            · cases h3
              omega
            · exact absurd h4 (updatePoints_no_updCall st _ n)

lemma updNonneg_approach (st : AuthState) (hf : Bool) (a : Approach)
    (r : UploadResp) :
    UpdCallsNonneg (handleApproachSelection st hf a r).2.1 := by
  by_cases hfe : hf = false
  · simp only [handleApproachSelection, if_pos hfe]
    intro n h
    simp at h
  · cases hp : st.profile with
    | none =>
      simp only [handleApproachSelection, if_neg hfe, hp]
      intro n h
      simp at h
    | some p =>
      simp only [handleApproachSelection, if_neg hfe, hp]
      by_cases hlt : p.token_points < approachCost a
      · rw [if_pos hlt]
        intro n h
        simp at h
      · rw [if_neg hlt]
        have key : ∀ n : Int,
            Event.updCall n ∈
              (Event.updCall (p.token_points - approachCost a) ::
                (updatePoints st (p.token_points - approachCost a)).2) ++
                [Event.backendCall] → 0 ≤ n := by
          intro n h
          rcases List.mem_append.mp h with h1 | h2
          · rcases List.mem_cons.mp h1 with h3 | h4
            · cases h3
              omega
            · exact absurd h4 (updatePoints_no_updCall st _ n)
          · simp at h2
        match r with
        | .ok => exact key
        | .notOk => exact key
        | .netError => exact key

lemma updNonneg_gen2d (st : AuthState) (cached : Option String)
    (r : TwoDResp) :
    UpdCallsNonneg (generate2DStructure st cached r).2.1 := by
  cases cached with
  | some s =>
    intro n h
    simp [generate2DStructure] at h
  | none =>
    cases hp : st.profile with
    | none =>
      simp only [generate2DStructure, hp]
      intro n h
      simp at h
    | some p =>
      simp only [generate2DStructure, hp]
      by_cases hlt : p.token_points < 1
      · rw [if_pos hlt]
        intro n h
        simp at h
      · rw [if_neg hlt]
        match r with
        | .netError =>
          intro n h
          simp at h
        | .notOk =>
          intro n h
          simp at h
        | .ok success s2d =>
          dsimp only
          by_cases hc : success = true ∧ s2d ≠ ""
          · rw [if_pos hc]
            intro n h
            rcases List.mem_cons.mp h with h1 | h2
            · exact absurd h1 (by simp)
            · rcases List.mem_cons.mp h2 with h3 | h4
              · cases h3
                omega
              · exact absurd h4 (updatePoints_no_updCall st _ n)
          · rw [if_neg hc]
            intro n h
            simp at h

lemma updNonneg_open3d (st : AuthState) (r : SmilesResp) :
    UpdCallsNonneg (open3DVisualization st r).2.1 := by
  cases hp : st.profile with
  | none =>
    simp only [open3DVisualization, hp]
    intro n h
    simp at h
  | some p =>
    simp only [open3DVisualization, hp]
    by_cases hlt : p.token_points < 3
    · rw [if_pos hlt]
      intro n h
      simp at h
    · rw [if_neg hlt]
      match r with
      | .netError =>
        intro n h
        simp at h
      | .notOk =>
        intro n h
        simp at h
      | .ok success k =>
        dsimp only
        by_cases hc : success = true ∧ 0 < k
        · rw [if_pos hc]
          intro n h
          rcases List.mem_cons.mp h with h1 | h2
          · exact absurd h1 (by simp)
          · rcases List.mem_cons.mp h2 with h3 | h4
            · cases h3
              omega
            · exact absurd h4 (updatePoints_no_updCall st _ n)
        · rw [if_neg hc]
          intro n h
          simp at h

/-- C3: in every reachable state the held profile's balance and every
persisted balance are non-negative, and from such a state no feature gate
ever invokes the ledger mutator with a negative argument: every recorded
`updCall` carries `balance - price` after the `balance ≥ price` check, so
its argument is non-negative for every backend outcome. -/
theorem reachable_balance_nonneg (st : AuthState) (h : ReachableState st) :
    BalanceInv st ∧
    (∀ (inp : String) (r : SmilesResp),
      UpdCallsNonneg (handleProcessSmiles st inp r).2.1) ∧
    (∀ (hf : Bool) (a : Approach) (r : UploadResp),
      UpdCallsNonneg (handleApproachSelection st hf a r).2.1) ∧
    (∀ (c : Option String) (r : TwoDResp),
      UpdCallsNonneg (generate2DStructure st c r).2.1) ∧
    (∀ r : SmilesResp, UpdCallsNonneg (open3DVisualization st r).2.1) := by
  refine ⟨?_, fun inp r => updNonneg_smiles st inp r,
    fun hf a r => updNonneg_approach st hf a r,
    fun c r => updNonneg_gen2d st c r,
    fun r => updNonneg_open3d st r⟩
  induction h with
  | refl => exact balanceInv_init
  | tail hab hbc ih => exact balanceInv_step _ _ hbc ih

theorem reachable_balance_nonneg_witness :
    BalanceInv (fetchUserProfile initState ("u1") (.ok (some ("a@b.com"))) ("t0")).1 ∧
    UpdCallsNonneg (handleProcessSmiles
      (fetchUserProfile initState ("u1") (.ok (some ("a@b.com"))) ("t0")).1
      ("CCO") (.ok true 2)).2.1 := by
  have hr : ReachableState
      (fetchUserProfile initState ("u1") (.ok (some ("a@b.com"))) ("t0")).1 :=
    Relation.ReflTransGen.single
      (Step.fetch initState ("u1") (.ok (some ("a@b.com"))) ("t0"))
  have h := reachable_balance_nonneg _ hr
  exact ⟨h.1, h.2.1 ("CCO") (.ok true 2)⟩

/-- C9 counterexample: the initial session fetch is
`supabase.auth.getSession().then(...)` with no rejection handler, so at the
concrete rejected-fetch outcome it is NOT the case that no exception
propagates and loading is resolved: the callback is skipped, the rejection
escapes unhandled and `loading` stays `true`. -/
theorem initial_fetch_rejection_cex :
    ¬ ((initialSessionFetch (observerInit []) .rejected (.ok none) ("t0")).2.2 = false ∧
       (initialSessionFetch (observerInit [])
         .rejected (.ok none) ("t0")).1.auth.loading = false) := by
  intro h
  simp [initialSessionFetch, observerInit] at h

/-- C9 amended: for every RESOLVED outcome of the initial session fetch no
exception propagates past the boundary, and a resolved fetch with no session
ends unauthenticated with loading resolved; a REJECTED initial fetch is not
caught — the callback is skipped, the observer state (including
`loading = true`) is left untouched and the rejection escapes as an
unhandled promise rejection. -/
theorem initial_fetch_behaviour (sto : Store) (g : GetUserOutcome)
    (now : String) :
    (initialSessionFetch (observerInit sto) (.ok none) g now =
      (⟨none, ⟨none, sto, false⟩⟩, [], false)) ∧
    (∀ uid : String,
      (initialSessionFetch (observerInit sto) (.ok (some uid)) g now).2.2 = false) ∧
    (initialSessionFetch (observerInit sto) .rejected g now =
      (observerInit sto, [], true)) :=
  ⟨rfl, fun _ => rfl, rfl⟩
